import Mathlib

/-!
Verification of the openclaw-mcp-bridge protocol bridge.

This file gives a shallow embedding of the bridge's core modules
(`src/sse.ts`, `src/session.ts`, `src/billing.ts` token store,
`src/bridge.ts`, `src/discovery.ts`, `src/util.ts`) as executable Lean
definitions, and proves the specified properties about them.

Modelling conventions:
* JavaScript strings are Lean `String`s; `String.trim`, `String.splitOn`,
  `String.drop`, `String.take` model `trim`, `split`, `slice` (all inputs
  of interest are ASCII, where the semantics coincide).
* JSON values are the inductive `Json`; the platform primitive
  `JSON.parse` is an oracle supplied through an `Env` record, while
  `JSON.stringify` is implemented executably as `jsonStringify`.
* JavaScript property access `x.k` is `jsAccess`, which models the
  `TypeError` thrown when the receiver is `null`; optional chaining
  `x?.k` is `optChain`; `??` uses `nullish`; truthiness tests are
  `jsTruthy` / `jsStrTruthy`.
* Exceptions are `Except String`; an uncaught exception is `.error`.
* The HTTP transport (fetch / curl) is modelled by passing the completed
  response(s) as explicit arguments: a single `FetchResponse` for a tool
  call, and a script `List (Except String CurlResp)` for discovery, where
  a `.error` entry models a transport-level throw.
-/

set_option autoImplicit false

namespace McpBridge

/-! ### Kernel-computable string operations

The Lean core implementations of `String.trim`, `String.split`,
`String.startsWith`, … are byte-position loops that the kernel cannot
reduce, so the JavaScript string operations used by the bridge are
implemented here over `List Char` (all inputs of interest are ASCII,
where JavaScript and Lean semantics coincide). -/

/-- The whitespace characters removed by `String.prototype.trim`
(restricted to the ASCII whitespace the bridge can encounter). -/
def wsChar (c : Char) : Bool :=
  c == ' ' || c == '\t' || c == '\n' || c == '\r'

/-- `s.trim()`. -/
def jsTrim (s : String) : String :=
  String.mk (((s.data.dropWhile wsChar).reverse.dropWhile wsChar).reverse)

/-- Whether the first list starts with the second. -/
def charsStartWith : List Char → List Char → Bool
  | _, [] => true
  | [], _ :: _ => false
  | c :: cs, d :: ds => c == d && charsStartWith cs ds

/-- `s.startsWith(p)`. -/
def jsStartsWith (s p : String) : Bool :=
  charsStartWith s.data p.data

/-- Split a character list on a separator character, keeping empty
pieces, as `String.prototype.split` does. -/
def splitChars (sep : Char) : List Char → List (List Char)
  | [] => [[]]
  | c :: rest =>
    if c == sep then [] :: splitChars sep rest
    else
      match splitChars sep rest with
      | [] => [[c]]
      | l :: ls => (c :: l) :: ls

/-- `s.split(sep)` for a one-character separator. -/
def jsSplitOn (sep : Char) (s : String) : List String :=
  (splitChars sep s.data).map String.mk

/-- Split a character list on the two-character sequence `\r\n`. -/
def splitCRLFChars : List Char → List (List Char)
  | [] => [[]]
  | '\r' :: '\n' :: rest => [] :: splitCRLFChars rest
  | c :: rest =>
    match splitCRLFChars rest with
    | [] => [[c]]
    | l :: ls => (c :: l) :: ls

/-- `s.split("\r\n")`. -/
def jsSplitCRLF (s : String) : List String :=
  (splitCRLFChars s.data).map String.mk

/-- `s.toLowerCase()`. -/
def jsToLower (s : String) : String :=
  String.mk (s.data.map Char.toLower)

/-- `s.slice(n)` (drop the first `n` characters). -/
def jsDrop (s : String) (n : Nat) : String :=
  String.mk (s.data.drop n)

/-- `s.slice(0, n)` (keep at most the first `n` characters). -/
def jsTake (s : String) (n : Nat) : String :=
  String.mk (s.data.take n)

/-- JSON values. Numbers are modelled as integers (every number appearing
in the bridge protocol — request ids, HTTP statuses — is integral). -/
inductive Json where
  | null
  | bool (b : Bool)
  | num (n : Int)
  | str (s : String)
  | arr (xs : List Json)
  | obj (fields : List (String × Json))
deriving Repr

/-- JavaScript truthiness of a value (`NaN` is not representable here). -/
def jsTruthy : Json → Bool
  | .null => false
  | .bool b => b
  | .num n => n != 0
  | .str s => s != ""
  | .arr _ => true
  | .obj _ => true

/-- Truthiness of a value that may be `undefined` (`none`). -/
def jsTruthyOpt : Option Json → Bool
  | none => false
  | some j => jsTruthy j

/-- Truthiness of an optional string (`undefined` and `""` are falsy). -/
def jsStrTruthy : Option String → Bool
  | none => false
  | some s => s != ""

/-- Property read on a value known not to be `null`: an object yields the
field (or `undefined`), every other receiver yields `undefined`. -/
def jsObjGet : Json → String → Option Json
  | .obj fields, k => fields.lookup k
  | _, _ => none

/-- JavaScript property access `x.k`: throws a `TypeError` when the
receiver is `null`, otherwise behaves as `jsObjGet`. -/
def jsAccess (j : Json) (k : String) : Except String (Option Json) :=
  match j with
  | .null => .error ("TypeError: Cannot read properties of null (reading " ++ k ++ ")")
  | _ => .ok (jsObjGet j k)

/-- Optional chaining `x?.k` where `x` itself may be `undefined`:
`undefined` and `null` receivers yield `undefined` without throwing. -/
def optChain (o : Option Json) (k : String) : Option Json :=
  match o with
  | none => none
  | some .null => none
  | some j => jsObjGet j k

/-- The `??` operator's left-operand test: `undefined` or `null`. -/
def nullish : Option Json → Bool
  | none => true
  | some .null => true
  | some _ => false

/-- String conversion as performed by a template literal. -/
def jsToString : Json → String
  | .null => "null"
  | .bool true => "true"
  | .bool false => "false"
  | .num n => toString n
  | .str s => s
  | .arr _ => ""
  | .obj _ => "[object Object]"

/-- Escaping of the characters of a string for `JSON.stringify`. -/
def jsonEscapeChars : List Char → List Char
  | [] => []
  | c :: cs =>
    (if c == '"' then ['\\', '"']
     else if c == '\\' then ['\\', '\\']
     else if c == '\n' then ['\\', 'n']
     else if c == '\r' then ['\\', 'r']
     else if c == '\t' then ['\\', 't']
     else [c]) ++ jsonEscapeChars cs

/-- Escaping of a string for `JSON.stringify`. -/
def jsonEscape (s : String) : String :=
  String.mk (jsonEscapeChars s.data)

mutual

/-- Executable model of `JSON.stringify` (compact form). -/
def jsonStringify : Json → String
  | .null => "null"
  | .bool true => "true"
  | .bool false => "false"
  | .num n => toString n
  | .str s => "\"" ++ jsonEscape s ++ "\""
  | .arr xs => "[" ++ jsonStringifyList xs ++ "]"
  | .obj fields => "\x7b" ++ jsonStringifyFields fields ++ "\x7d"

/-- Comma-separated serialization of a list of values. -/
def jsonStringifyList : List Json → String
  | [] => ""
  | [x] => jsonStringify x
  | x :: xs => jsonStringify x ++ "," ++ jsonStringifyList xs

/-- Comma-separated serialization of an object's fields. -/
def jsonStringifyFields : List (String × Json) → String
  | [] => ""
  | [(k, v)] => "\"" ++ jsonEscape k ++ "\":" ++ jsonStringify v
  | (k, v) :: fs =>
    "\"" ++ jsonEscape k ++ "\":" ++ jsonStringify v ++ "," ++ jsonStringifyFields fs

end

mutual

/-- Executable model of `JSON.stringify(v, null, 2)` (two-space indent),
used only on the tool-call success path. -/
def jsonStringifyPretty (indent : Nat) : Json → String
  | .arr [] => "[]"
  | .arr xs =>
    "[\n" ++ jsonStringifyPrettyList (indent + 2) xs ++ "\n"
      ++ String.mk (List.replicate indent ' ') ++ "]"
  | .obj [] => "\x7b\x7d"
  | .obj fields =>
    "\x7b\n" ++ jsonStringifyPrettyFields (indent + 2) fields ++ "\n"
      ++ String.mk (List.replicate indent ' ') ++ "\x7d"
  | j => jsonStringify j

/-- Indented serialization of array elements. -/
def jsonStringifyPrettyList (indent : Nat) : List Json → String
  | [] => ""
  | [x] => String.mk (List.replicate indent ' ') ++ jsonStringifyPretty indent x
  | x :: xs =>
    String.mk (List.replicate indent ' ') ++ jsonStringifyPretty indent x ++ ",\n"
      ++ jsonStringifyPrettyList indent xs

/-- Indented serialization of object fields. -/
def jsonStringifyPrettyFields (indent : Nat) : List (String × Json) → String
  | [] => ""
  | [(k, v)] =>
    String.mk (List.replicate indent ' ') ++ "\"" ++ jsonEscape k ++ "\": "
      ++ jsonStringifyPretty indent v
  | (k, v) :: fs =>
    String.mk (List.replicate indent ' ') ++ "\"" ++ jsonEscape k ++ "\": "
      ++ jsonStringifyPretty indent v ++ ",\n" ++ jsonStringifyPrettyFields indent fs

end

/-! ## Response decoder — `src/sse.ts`, `parseSseResponse` -/

/-- Loop state of `parseSseResponse`: the collected data lines and the
`inMessageEvent` flag. -/
structure SseState where
  dataLines : List String
  inMessageEvent : Bool
deriving Repr, DecidableEq

/-- One iteration of the line loop in `parseSseResponse`
(src/sse.ts lines 34–60). -/
def sseStep (st : SseState) (line : String) : SseState :=
  let stripped := jsTrim line
  if stripped == "event: message" || stripped == "event:message" then
    ⟨[], true⟩
  else if stripped == "" then
    st
  else if jsStartsWith stripped "data:" then
    let inME := if !st.inMessageEvent && st.dataLines.length == 0 then true else st.inMessageEvent
    if inME then ⟨st.dataLines ++ [jsTrim (jsDrop stripped 5)], inME⟩ else ⟨st.dataLines, inME⟩
  else
    st

/-- The line loop of `parseSseResponse` run over a list of lines. -/
def sseRun (st : SseState) (lines : List String) : SseState :=
  lines.foldl sseStep st

/-- `parseSseResponse` from src/sse.ts (lines 18–68): extract the JSON
payload from a body that is either plain JSON or SSE-framed. -/
def parseSseResponse (raw : String) : String :=
  let trimmed := jsTrim raw
  if jsStartsWith trimmed "\x7b" then
    trimmed
  else
    let lines := jsSplitOn '\n' trimmed
    let final := sseRun ⟨[], false⟩ lines
    if final.dataLines.length > 0 then
      String.intercalate "\n" final.dataLines
    else
      trimmed

/-! ## Session key parsing — `src/session.ts` -/

/-- `parseTelegramUserId` from src/session.ts: extract the Telegram user
id from a session key of the form
`agent:main:telegram:default:direct:<id>`. -/
def parseTelegramUserId : Option String → Option String
  | none => none
  | some sessionKey =>
    if sessionKey == "" then none
    else
      let segments := jsSplitOn ':' sessionKey
      if segments.length < 6 then none
      else if segments.getD 2 "" != "telegram" || segments.getD 4 "" != "direct" then none
      else
        let userId := segments.getD 5 ""
        if userId == "" then none
        else some userId

/-! ## Token store — `src/billing.ts` (token-store part) -/

/-- A row of the `tokens` table (src/billing.ts `TokenRecord`). -/
structure TokenRecord where
  telegram_user_id : String
  service : String
  access_token : String
  refresh_token : Option String
  expires_at : Option Int
  created_at : Int

/-- Buffer in seconds before actual expiry to consider a token expired. -/
def EXPIRY_BUFFER_SECONDS : Int := 60

/-- `TokenStore.isExpired` from src/billing.ts; the current epoch-seconds
time (`Math.floor(Date.now() / 1000)`) is passed explicitly. -/
def isExpired (record : TokenRecord) (now : Int) : Bool :=
  match record.expires_at with
  | none => false
  | some e => e ≤ now + EXPIRY_BUFFER_SECONDS

/-! ## Token resolution — `src/bridge.ts`, `resolveToken` -/

/-- Server configuration (src/config.ts `ServerConfig`); the tool-name
namespacing field is called `prefix` in the source. -/
structure ServerConfig where
  name : String
  url : String
  toolPrefix : String
  token : Option String
  path : Option String

/-- The token-store interface consumed by the bridge
(`get` / `isExpired`), as used in src/bridge.ts. -/
structure TokenStore where
  getToken : String → String → Option TokenRecord
  isExpired : TokenRecord → Bool

/-- Token-resolution options (src/bridge.ts `TokenResolutionOptions`). -/
structure TokenResolutionOptions where
  userId : Option String
  tokenStore : Option TokenStore
  service : String

/-- The refusal message produced for an expired per-user token. -/
def expiredTokenMessage (service : String) : String :=
  "Your " ++ service ++ " token has expired. Please run /connect " ++ service
    ++ " to re-authenticate."

/-- The refusal message produced when per-user infrastructure exists but
no token is stored. -/
def noTokenMessage (service : String) : String :=
  "No " ++ service ++ " token found for your account. Please run /connect "
    ++ service ++ " to authenticate."

/-- `resolveToken` from src/bridge.ts (lines 45–83), returning the pair
`(token, error)`. The JavaScript early returns become the `fallback`
value reached whenever the per-user branch does not return. -/
def resolveToken (server : ServerConfig) (opts : TokenResolutionOptions) :
    Option String × Option String :=
  let fallback : Option String × Option String :=
    if jsStrTruthy server.token then (server.token, none)
    else if jsStrTruthy opts.userId && opts.tokenStore.isSome then
      (none, some (noTokenMessage opts.service))
    else (none, none)
  match opts.userId, opts.tokenStore with
  | some uid, some store =>
    if uid != "" then
      match store.getToken uid opts.service with
      | some record =>
        if store.isExpired record then
          (none, some (expiredTokenMessage opts.service))
        else
          (some record.access_token, none)
      | none => fallback
    else fallback
  | _, _ => fallback

end McpBridge

namespace McpBridge

/-! ## Tool invocation — `src/bridge.ts`, `createBridgedTool.execute` -/

/-- Whether a JSON value is exactly `null`. -/
def isNull : Json → Bool
  | .null => true
  | _ => false

/-- `Array.isArray`. -/
def isArr : Json → Bool
  | .arr _ => true
  | _ => false

/-- The platform JSON parser (`JSON.parse`), supplied as an oracle: the
result on success, or the thrown message on failure. -/
structure Env where
  jsonParse : String → Except String Json

/-- Modelled from the spec: the default MCP endpoint path. The constant
`DEFAULT_MCP_PATH` is imported from the config module, whose provided
source does not define it; the spec fixes the default path as `/mcp`. -/
def DEFAULT_MCP_PATH : String := "/mcp"

/-- A tool definition produced by discovery
(src/discovery.ts `McpToolDefinition`). -/
structure McpToolDefinition where
  name : String
  description : Option String
  inputSchema : Option Json

/-- One content block of a tool result. -/
structure ContentBlock where
  type : String
  text : String
deriving Repr, DecidableEq

/-- The value returned by `execute`. -/
structure ExecResult where
  content : List ContentBlock
  details : Option Json
deriving Repr

/-- The single HTTP request sent by `execute`, recorded structurally
(the body before `JSON.stringify`). -/
structure ToolCallRequest where
  url : String
  contentType : String
  accept : String
  authorization : Option String
  mcpSessionId : Option String
  body : Json
deriving Repr

/-- A completed HTTP exchange as seen by `execute` (the `fetch` response
with its body already read). -/
structure FetchResponse where
  ok : Bool
  status : Int
  body : String

/-- Outcome of one `execute` call: the request sent (none when token
resolution refused before sending) and the result, where `.error` models
an exception escaping `execute`. -/
structure ExecOutcome where
  sent : Option ToolCallRequest
  result : Except String ExecResult

/-- The `tools/call` JSON-RPC body built by `execute`. -/
def toolCallBody (toolName : String) (params : Json) (toolCallId : String) : Json :=
  .obj [("jsonrpc", .str "2.0"), ("method", .str "tools/call"),
        ("params", .obj [("name", .str toolName), ("arguments", params)]),
        ("id", .str toolCallId)]

/-- The token/error pair computed at the top of `execute`
(src/bridge.ts lines 112–114). -/
def executeTokenPair (server : ServerConfig)
    (tokenOpts : Option TokenResolutionOptions) : Option String × Option String :=
  match tokenOpts with
  | some o => resolveToken server o
  | none => (server.token, none)

/-- `createBridgedTool(...).execute` from src/bridge.ts (lines 109–224),
for a call whose HTTP exchange completed with response `resp`. -/
def executeTool (env : Env) (server : ServerConfig) (mcpTool : McpToolDefinition)
    (sessionId : Option String) (tokenOpts : Option TokenResolutionOptions)
    (toolCallId : String) (params : Json) (resp : FetchResponse) : ExecOutcome :=
  let endpoint := server.url ++ (server.path.getD DEFAULT_MCP_PATH)
  let tokenPair := executeTokenPair server tokenOpts
  let token := tokenPair.1
  let error := tokenPair.2
  if jsStrTruthy error then
    ⟨none, .ok ⟨[⟨"text", error.getD ""⟩], none⟩⟩
  else
    let req : ToolCallRequest :=
      ⟨endpoint, "application/json", "application/json, text/event-stream",
       if jsStrTruthy token then some ("Bearer " ++ token.getD "") else none,
       if jsStrTruthy sessionId then sessionId else none,
       toolCallBody mcpTool.name params toolCallId⟩
    if !resp.ok then
      ⟨some req, .ok ⟨[⟨"text", jsonStringify (.obj [("error", .bool true),
        ("status", .num resp.status),
        ("message", .str (jsTake resp.body 1000))])⟩], none⟩⟩
    else
      match env.jsonParse (parseSseResponse resp.body) with
      | .error parseErr =>
        ⟨some req, .ok ⟨[⟨"text", jsonStringify (.obj [("error", .bool true),
          ("message", .str ("Failed to parse MCP response: " ++ parseErr))])⟩], none⟩⟩
      | .ok result =>
        match jsAccess result "error" with
        | .error te => ⟨some req, .error te⟩
        | .ok errOpt =>
          if jsTruthyOpt errOpt then
            let errObj := errOpt.getD .null
            let msgVal :=
              if nullish (jsObjGet errObj "message") then
                Json.str (jsonStringify errObj)
              else
                (jsObjGet errObj "message").getD .null
            ⟨some req, .ok ⟨[⟨"text", jsonStringify (.obj [("error", .bool true),
              ("message", msgVal)])⟩], none⟩⟩
          else
            match jsAccess result "result" with
            | .error te => ⟨some req, .error te⟩
            | .ok resOpt =>
              let contentOpt := optChain resOpt "content"
              let mcpContent : Json :=
                if !nullish contentOpt then contentOpt.getD .null
                else if !nullish resOpt then resOpt.getD .null
                else .null
              if isNull mcpContent then
                ⟨some req, .ok ⟨[⟨"text", "(no content returned)"⟩], none⟩⟩
              else
                let payload :=
                  match mcpContent with
                  | .str s => s
                  | j => jsonStringifyPretty 0 j
                ⟨some req, .ok ⟨[⟨"text", payload⟩], some mcpContent⟩⟩

/-- A bridged tool (src/bridge.ts `BridgedTool`); `execute` additionally
receives the parse oracle and the completed HTTP response. -/
structure BridgedTool where
  name : String
  label : String
  description : String
  parameters : Json
  execute : Env → String → Json → FetchResponse → ExecOutcome

/-- `createBridgedTool` from src/bridge.ts (lines 95–226). -/
def createBridgedTool (server : ServerConfig) (mcpTool : McpToolDefinition)
    (sessionId : Option String) (tokenOpts : Option TokenResolutionOptions) :
    BridgedTool :=
  ⟨server.toolPrefix ++ "_" ++ mcpTool.name,
   server.name ++ ": " ++ mcpTool.name,
   mcpTool.description.getD
     ("Call " ++ mcpTool.name ++ " on " ++ server.name ++ " MCP server"),
   mcpTool.inputSchema.getD (.obj [("type", .str "object"), ("properties", .obj [])]),
   fun env toolCallId params resp =>
     executeTool env server mcpTool sessionId tokenOpts toolCallId params resp⟩

end McpBridge

namespace McpBridge

/-! ## Discovery — `src/discovery.ts` and `src/util.ts` -/

/-- `sanitizeUrlForLog` from src/util.ts. The platform `URL` class is
modelled for well-formed `http`/`https` URLs without fragments: a URL is
parseable when it starts with a scheme prefix, clearing `search` removes
everything from the first `?`, and the final regex replacement strips a
single trailing slash. -/
def sanitizeUrlForLog (url : String) : String :=
  if jsStartsWith url "http://" || jsStartsWith url "https://" then
    let noQuery := (jsSplitOn '?' url).getD 0 url
    if noQuery.data.getLast? == some '/' then String.mk noQuery.data.dropLast
    else noQuery
  else "(invalid URL)"

/-- A completed curl exchange: the raw response headers and the body
(the `-i` output split that `curlPost` performs). -/
structure CurlResp where
  headers : String
  body : String

/-- `extractSessionId` from src/discovery.ts (lines 78–86): first
`Mcp-Session-Id` header, matched case-insensitively, value trimmed. -/
def extractSessionId (rawHeaders : String) : Option String :=
  match (jsSplitCRLF rawHeaders).find?
      (fun line => jsStartsWith (jsToLower line) "mcp-session-id:") with
  | some line => some (jsTrim (jsDrop line 15))
  | none => none

/-- One request issued during discovery, recorded structurally: the
`Mcp-Session-Id` header `curlPost` attaches (when the held session id is
truthy) and the JSON-RPC body before `JSON.stringify`. -/
structure DiscoveryRequest where
  url : String
  authorization : Option String
  sessionHeader : Option String
  body : Json
deriving Repr

/-- The discovery result (src/discovery.ts `DiscoveryResult`); tool
entries are kept as the parsed JSON values, as the source casts them
without validation. -/
structure DiscoveryResult where
  tools : List Json
  sessionId : Option String

/-- The `initialize` request body (src/discovery.ts lines 119–131). -/
def initBody : Json :=
  .obj [("jsonrpc", .str "2.0"), ("method", .str "initialize"),
    ("params", .obj [("protocolVersion", .str "2025-03-26"),
      ("capabilities", .obj []),
      ("clientInfo", .obj [("name", .str "openclaw-mcp-bridge"),
        ("version", .str "0.1.0")])]),
    ("id", .str "init-1")]

/-- The `notifications/initialized` body (src/discovery.ts lines 148–151). -/
def initializedBody : Json :=
  .obj [("jsonrpc", .str "2.0"), ("method", .str "notifications/initialized")]

/-- The `tools/list` pagination loop (src/discovery.ts lines 158–200),
driven by a script of curl outcomes (a `.error` entry models a transport
throw; an exhausted script likewise). Returns the requests issued and
either the collected tools with the final session id, or the thrown
message. -/
def listLoop (env : Env) (endpoint : String) (auth : Option String)
    (sessionId : Option String) (cursor : Option Json) (acc : List Json)
    (requestId : Nat) (script : List (Except String CurlResp)) :
    List DiscoveryRequest × Except String (List Json × Option String) :=
  let listParams :=
    if jsTruthyOpt cursor then Json.obj [("cursor", cursor.getD .null)]
    else Json.obj []
  let listBody := Json.obj [("jsonrpc", .str "2.0"), ("method", .str "tools/list"),
    ("params", listParams), ("id", .num requestId)]
  let req : DiscoveryRequest :=
    ⟨endpoint, auth, if jsStrTruthy sessionId then sessionId else none, listBody⟩
  match script with
  | [] => ([req], .error "curl: request failed")
  | .error e :: _ => ([req], .error e)
  | .ok listResp :: rest =>
    let respSessionId := extractSessionId listResp.headers
    let sessionId1 := if jsStrTruthy respSessionId then respSessionId else sessionId
    let jsonStr := parseSseResponse listResp.body
    match env.jsonParse jsonStr with
    | .error e => ([req], .error e)
    | .ok response =>
      match jsAccess response "error" with
      | .error te => ([req], .error te)
      | .ok errOpt =>
        if jsTruthyOpt errOpt then
          let errVal := errOpt.getD .null
          let msg :=
            if nullish (jsObjGet errVal "message") then jsonStringify errVal
            else jsToString ((jsObjGet errVal "message").getD .null)
          ([req], .error ("MCP error: " ++ msg))
        else
          match jsAccess response "result" with
          | .error te => ([req], .error te)
          | .ok resOpt =>
            match optChain resOpt "tools" with
            | some (.arr ts) =>
              let acc1 := acc ++ ts
              let nextOpt := optChain resOpt "nextCursor"
              if jsTruthyOpt nextOpt then
                let next := listLoop env endpoint auth sessionId1
                  (some (nextOpt.getD .null)) acc1 (requestId + 1) rest
                (req :: next.1, next.2)
              else
                ([req], .ok (acc1, sessionId1))
            | _ =>
              ([req], .error ("Unexpected tools/list response: " ++ jsTake jsonStr 200))

/-- `discoverToolsSync` from src/discovery.ts (lines 100–207): initialize
handshake, best-effort initialized notification, paginated `tools/list`;
any exception of the sequence is caught once and re-raised wrapped with
the server name and query-stripped URL. -/
def discoverToolsSync (env : Env) (server : ServerConfig)
    (script : List (Except String CurlResp)) :
    List DiscoveryRequest × Except String DiscoveryResult :=
  let endpoint := server.url ++ (server.path.getD DEFAULT_MCP_PATH)
  let safeUrl := sanitizeUrlForLog endpoint
  let auth :=
    if jsStrTruthy server.token then some ("Bearer " ++ server.token.getD "")
    else none
  let initReq : DiscoveryRequest := ⟨endpoint, auth, none, initBody⟩
  let run : List DiscoveryRequest × Except String (List Json × Option String) :=
    match script with
    | [] => ([initReq], .error "curl: request failed")
    | .error e :: _ => ([initReq], .error e)
    | .ok initResp :: rest1 =>
      let sessionId := extractSessionId initResp.headers
      let notifReq : DiscoveryRequest :=
        ⟨endpoint, auth, if jsStrTruthy sessionId then sessionId else none,
         initializedBody⟩
      let next := listLoop env endpoint auth sessionId none [] 1 (rest1.drop 1)
      (initReq :: notifReq :: next.1, next.2)
  match run.2 with
  | .ok (tools, sid) => (run.1, .ok ⟨tools, sid⟩)
  | .error msg =>
    (run.1, .error ("Failed to discover tools from " ++ server.name
      ++ " (" ++ safeUrl ++ "): " ++ msg))

end McpBridge

namespace McpBridge

/-! ## Concrete fixtures used by witnesses and counterexamples -/

/-- A server configuration without static token. -/
def fixtureServer : ServerConfig := ⟨"notion", "http://localhost:3000", "notion", none, none⟩

/-- A discovered tool definition. -/
def fixtureTool : McpToolDefinition := ⟨"search", none, none⟩

/-- Page-1 `tools/list` response body (carries a `nextCursor`). -/
def fixtureBody1 : String :=
  "\x7b\"result\":\x7b\"tools\":[\x7b\"name\":\"t1\"\x7d],\"nextCursor\":\"abc\"\x7d\x7d"

/-- Parsed form of `fixtureBody1`. -/
def fixtureJson1 : Json :=
  .obj [("result", .obj [("tools", .arr [.obj [("name", .str "t1")]]),
    ("nextCursor", .str "abc")])]

/-- Page-2 `tools/list` response body (no cursor). -/
def fixtureBody2 : String :=
  "\x7b\"result\":\x7b\"tools\":[\x7b\"name\":\"t2\"\x7d]\x7d\x7d"

/-- Parsed form of `fixtureBody2`. -/
def fixtureJson2 : Json :=
  .obj [("result", .obj [("tools", .arr [.obj [("name", .str "t2")]])])]

/-- A response body with a top-level `error` field. -/
def fixtureErrBody : String := "\x7b\"error\":\x7b\"message\":\"boom\"\x7d\x7d"

/-- Parsed form of `fixtureErrBody`. -/
def fixtureErrJson : Json := .obj [("error", .obj [("message", .str "boom")])]

/-- A response body whose `result.tools` is not an array. -/
def fixtureBadBody : String := "\x7b\"result\":\x7b\"tools\":\"nope\"\x7d\x7d"

/-- Parsed form of `fixtureBadBody`. -/
def fixtureBadJson : Json := .obj [("result", .obj [("tools", .str "nope")])]

/-- A parse oracle recognising exactly the fixture bodies and `null` and
the empty-object body. -/
def fixtureEnv : Env :=
  ⟨fun s =>
    if s = fixtureBody1 then .ok fixtureJson1
    else if s = fixtureBody2 then .ok fixtureJson2
    else if s = fixtureErrBody then .ok fixtureErrJson
    else if s = fixtureBadBody then .ok fixtureBadJson
    else if s = "null" then .ok .null
    else if s = "\x7b\x7d" then .ok (.obj [])
    else .error "SyntaxError: Unexpected token"⟩

end McpBridge

namespace McpBridge

/-! ## Helper lemmas about the SSE line loop -/

/-- An `event: message` line resets the loop state unconditionally. -/
theorem sseStep_event_message (st : SseState) :
    sseStep st "event: message" = ⟨[], true⟩ := by
  cases st; rfl

/-- Running the loop over concatenated line lists composes. -/
theorem sseRun_append (st : SseState) (l1 l2 : List String) :
    sseRun st (l1 ++ l2) = sseRun (sseRun st l1) l2 := by
  simp [sseRun, List.foldl_append]

/-- From any state, an `event: message` line restarts collection. -/
theorem sseRun_reset (st : SseState) (post : List String) :
    sseRun st ("event: message" :: post) = sseRun ⟨[], true⟩ post := by
  simp [sseRun, sseStep_event_message]

/-- A trimmed line that starts with `data:` is not an event line, not
empty. -/
theorem startsWith_data_ne (s : String) (h : jsStartsWith s "data:" = true) :
    (s == "event: message") = false ∧ (s == "event:message") = false ∧
      (s == "") = false := by
  refine ⟨?_, ?_, ?_⟩ <;> rw [beq_eq_false_iff_ne] <;> intro hs <;> subst hs <;>
    exact absurd h (by decide)

/-- Inside a message block, a `data:` line appends its fully trimmed
payload to the accumulator. -/
theorem sseStep_data (ds : List String) (l : String)
    (h : jsStartsWith (jsTrim l) "data:" = true) :
    sseStep ⟨ds, true⟩ l = ⟨ds ++ [jsTrim (jsDrop (jsTrim l) 5)], true⟩ := by
  obtain ⟨h1, h2, h3⟩ := startsWith_data_ne (jsTrim l) h
  simp [sseStep, h, h1, h2, h3]

/-- A block of `data:` lines appends its payloads in order. -/
theorem sseRun_data_block (ds : List String) (ls : List String)
    (h : ∀ l ∈ ls, jsStartsWith (jsTrim l) "data:" = true) :
    sseRun ⟨ds, true⟩ ls
      = ⟨ds ++ ls.map (fun l => jsTrim (jsDrop (jsTrim l) 5)), true⟩ := by
  induction ls generalizing ds with
  | nil => simp [sseRun]
  | cons l ls ih =>
    have hl := h l (List.mem_cons_self l ls)
    have hrest : ∀ x ∈ ls, jsStartsWith (jsTrim x) "data:" = true :=
      fun x hx => h x (List.mem_cons_of_mem l hx)
    calc sseRun ⟨ds, true⟩ (l :: ls)
        = sseRun (sseStep ⟨ds, true⟩ l) ls := by simp [sseRun]
      _ = sseRun ⟨ds ++ [jsTrim (jsDrop (jsTrim l) 5)], true⟩ ls := by
            rw [sseStep_data ds l hl]
      _ = ⟨ds ++ (l :: ls).map (fun x => jsTrim (jsDrop (jsTrim x) 5)), true⟩ := by
            rw [ih _ hrest]; simp

end McpBridge

namespace McpBridge

/-- Claim C3: in SSE input (trimmed text not starting with a brace), each
`event: message` line discards all previously accumulated data lines, so
only the last block's data survives; and within one block, consecutive
`data:` lines are collected in order and joined with a newline. -/
theorem sse_last_block_only :
    (∀ (raw : String) (pre post : List String),
        jsStartsWith (jsTrim raw) "\x7b" = false →
        jsSplitOn '\n' (jsTrim raw) = pre ++ "event: message" :: post →
        (sseRun ⟨[], true⟩ post).dataLines ≠ [] →
        parseSseResponse raw
          = String.intercalate "\n" (sseRun ⟨[], true⟩ post).dataLines) ∧
    (∀ (ds ls : List String),
        (∀ l ∈ ls, jsStartsWith (jsTrim l) "data:" = true) →
        sseRun ⟨ds, true⟩ ls
          = ⟨ds ++ ls.map (fun l => jsTrim (jsDrop (jsTrim l) 5)), true⟩) := by
  constructor
  · intro raw pre post hjson hsplit hne
    unfold parseSseResponse
    rw [if_neg (by simp [hjson]), hsplit]
    dsimp only
    rw [sseRun_append, sseRun_reset]
    rw [if_pos (by simpa [List.length_pos] using hne)]
  · intro ds ls h
    exact sseRun_data_block ds ls h

/-- Claim C3 witness: two `event: message` blocks; only the second block's
two data lines survive, joined with a newline. -/
theorem sse_last_block_only_witness :
    parseSseResponse
        "event: message\ndata: a\n\nevent: message\ndata: b\ndata: c"
      = "b\nc" ∧
    sseRun ⟨[], true⟩ ["data: x", "data: y"] = ⟨["x", "y"], true⟩ := by
  constructor
  · have h := sse_last_block_only.1
      "event: message\ndata: a\n\nevent: message\ndata: b\ndata: c"
      ["event: message", "data: a", ""] ["data: b", "data: c"]
      (by decide) (by decide) (by decide)
    exact h.trans (by decide)
  · have h := sse_last_block_only.2 [] ["data: x", "data: y"] (by decide)
    exact h.trans (by decide)

end McpBridge

namespace McpBridge

/-- Claim C4 counterexample: on the data line `data:  ab` (two spaces),
the decoder yields `ab` — it fully trims the remainder — whereas removing
the prefix and at most one following space would leave ` ab`. -/
theorem sse_data_line_counterexample :
    parseSseResponse "data:  ab" = "ab" ∧ ("ab" : String) ≠ " ab" := by
  constructor
  · decide
  · decide

/-- Claim C4 (amended): a collected `data:` line contributes the remainder
after the `data:` prefix with all leading and trailing whitespace trimmed
(so a whitespace-only remainder contributes the empty string element), and
a bare `data` line with no colon is ignored entirely. -/
theorem sse_data_line_trimmed :
    (∀ (ds : List String) (l : String),
        jsStartsWith (jsTrim l) "data:" = true →
        sseStep ⟨ds, true⟩ l = ⟨ds ++ [jsTrim (jsDrop (jsTrim l) 5)], true⟩) ∧
    (∀ st : SseState, sseStep st "data" = st) := by
  constructor
  · exact sseStep_data
  · intro st; cases st; rfl

/-- Claim C4 witness: a `data:` line with extra whitespace is fully
trimmed, and a whitespace-only remainder contributes an empty string. -/
theorem sse_data_line_trimmed_witness :
    sseStep ⟨[], true⟩ "data:   x  " = ⟨["x"], true⟩ ∧
    sseStep ⟨["x"], true⟩ "data:  " = ⟨["x", ""], true⟩ := by
  constructor
  · exact (sse_data_line_trimmed.1 [] "data:   x  " (by decide)).trans (by decide)
  · exact (sse_data_line_trimmed.1 ["x"] "data:  " (by decide)).trans (by decide)

/-- Claim C8: the decoder is the identity up to trimming wherever it does
not extract SSE data: brace-initial input is returned trimmed even if it
contains SSE-looking lines, input with no collected data lines is
returned trimmed, and whitespace-only input yields the empty string. -/
theorem sse_identity_cases :
    (∀ raw : String, jsStartsWith (jsTrim raw) "\x7b" = true →
        parseSseResponse raw = jsTrim raw) ∧
    (∀ raw : String,
        (sseRun ⟨[], false⟩ (jsSplitOn '\n' (jsTrim raw))).dataLines = [] →
        parseSseResponse raw = jsTrim raw) ∧
    (∀ raw : String, jsTrim raw = "" → parseSseResponse raw = "") := by
  refine ⟨?_, ?_, ?_⟩
  · intro raw h
    unfold parseSseResponse
    rw [if_pos h]
  · intro raw h
    unfold parseSseResponse
    by_cases hb : jsStartsWith (jsTrim raw) "\x7b" = true
    · rw [if_pos hb]
    · rw [if_neg hb]
      dsimp only
      rw [h]
      simp
  · intro raw h
    unfold parseSseResponse
    rw [h]
    decide

end McpBridge

namespace McpBridge

/-- Claim C8 witness: brace-initial input (with an SSE-looking line
inside) is returned trimmed, data-free input is returned trimmed, and
whitespace-only input yields the empty string. -/
theorem sse_identity_cases_witness :
    parseSseResponse " \x7b\"a\":1,\n\"b\":\"data: x\"\x7d " = "\x7b\"a\":1,\n\"b\":\"data: x\"\x7d" ∧
    parseSseResponse "hello world" = "hello world" ∧
    parseSseResponse "  \n " = "" := by
  refine ⟨?_, ?_, ?_⟩
  · exact sse_identity_cases.1 " \x7b\"a\":1,\n\"b\":\"data: x\"\x7d " (by decide)
  · exact (sse_identity_cases.2.1 "hello world" (by decide)).trans (by decide)
  · exact sse_identity_cases.2.2 "  \n " (by decide)

/-- Claim C9: the token store's expiry check treats a record without
`expires_at` as never expired, and a record with `expires_at = e` as
expired exactly when `e` is at most the current time plus the 60-second
buffer. -/
theorem isExpired_spec (record : TokenRecord) (now : Int) :
    (record.expires_at = none → isExpired record now = false) ∧
    (∀ e : Int, record.expires_at = some e →
        (isExpired record now = true ↔ e ≤ now + 60)) := by
  constructor
  · intro h
    simp [isExpired, h]
  · intro e h
    simp [isExpired, h, EXPIRY_BUFFER_SECONDS]

/-- Claim C9 witness: a record with no expiry is not expired at any time;
a record expiring at 100 is expired at time 50 (buffer included). -/
theorem isExpired_spec_witness :
    isExpired ⟨"u", "s", "tok", none, none, 0⟩ 123456 = false ∧
    isExpired ⟨"u", "s", "tok", none, some 100, 0⟩ 50 = true := by
  constructor
  · exact (isExpired_spec ⟨"u", "s", "tok", none, none, 0⟩ 123456).1 rfl
  · exact ((isExpired_spec ⟨"u", "s", "tok", none, some 100, 0⟩ 50).2 100 rfl).mpr
      (by decide)

/-- Claim C2: with a caller identity and a credential store available and
a stored record for the identity and service key, an expired record makes
the resolver return the refusal message and no token (never the static
server token, whatever the server configuration), and a non-expired
record resolves to its access token. -/
theorem resolveToken_per_user (server : ServerConfig)
    (opts : TokenResolutionOptions) (store : TokenStore) (uid : String)
    (record : TokenRecord)
    (huid : opts.userId = some uid) (hne : uid ≠ "")
    (hstore : opts.tokenStore = some store)
    (hget : store.getToken uid opts.service = some record) :
    (store.isExpired record = true →
        resolveToken server opts = (none, some (expiredTokenMessage opts.service))) ∧
    (store.isExpired record = false →
        resolveToken server opts = (some record.access_token, none)) := by
  have hbne : (uid != "") = true := by simp [bne_iff_ne, hne]
  constructor
  · intro hexp
    simp [resolveToken, huid, hstore, hbne, hget, hexp]
  · intro hval
    simp [resolveToken, huid, hstore, hbne, hget, hval]

/-- Claim C2 witness: a concrete expired record refuses even though a
static token is configured, and a concrete valid record resolves to its
access token. -/
theorem resolveToken_per_user_witness :
    resolveToken ⟨"srv", "http://h", "pfx", some "static-token", none⟩
        ⟨some "42", some ⟨fun _ _ => some ⟨"42", "notion", "tok-42", none, some 100, 0⟩,
          fun _ => true⟩, "notion"⟩
      = (none, some (expiredTokenMessage "notion")) ∧
    resolveToken ⟨"srv", "http://h", "pfx", some "static-token", none⟩
        ⟨some "42", some ⟨fun _ _ => some ⟨"42", "notion", "tok-42", none, some 100, 0⟩,
          fun _ => false⟩, "notion"⟩
      = (some "tok-42", none) := by
  constructor
  · exact (resolveToken_per_user _ _ _ "42" ⟨"42", "notion", "tok-42", none, some 100, 0⟩
      rfl (by decide) rfl rfl).1 rfl
  · exact (resolveToken_per_user _ _ _ "42" ⟨"42", "notion", "tok-42", none, some 100, 0⟩
      rfl (by decide) rfl rfl).2 rfl

end McpBridge

namespace McpBridge

/-- Claim C10: the session-key parser returns a user id exactly when the
key split on colons has at least six segments, the third is `telegram`,
the fifth is `direct`, and the sixth is non-empty, in which case the
sixth segment is returned; every other input (including an undefined
key) yields none. -/
theorem parseTelegramUserId_spec :
    parseTelegramUserId none = none ∧
    ∀ s : String,
      parseTelegramUserId (some s)
        = (if 6 ≤ (jsSplitOn ':' s).length ∧ (jsSplitOn ':' s).getD 2 "" = "telegram"
              ∧ (jsSplitOn ':' s).getD 4 "" = "direct" ∧ (jsSplitOn ':' s).getD 5 "" ≠ ""
           then some ((jsSplitOn ':' s).getD 5 "")
           else none) := by
  refine ⟨rfl, fun s => ?_⟩
  by_cases hs : s = ""
  · subst hs; decide
  · have hs0 : ¬((s == "") = true) := by simp [hs]
    conv_lhs => rw [parseTelegramUserId, if_neg hs0]
    dsimp only
    by_cases hlen : (jsSplitOn ':' s).length < 6
    · conv_lhs => rw [if_pos hlen]
      rw [if_neg (fun hc => absurd hc.1 (by omega))]
    · by_cases h2 : (jsSplitOn ':' s).getD 2 "" = "telegram"
      · by_cases h4 : (jsSplitOn ':' s).getD 4 "" = "direct"
        · have hor : ¬(((jsSplitOn ':' s).getD 2 "" != "telegram"
              || (jsSplitOn ':' s).getD 4 "" != "direct") = true) := by
            simp only [Bool.or_eq_true, bne_iff_ne, not_or, not_not]
            exact ⟨h2, h4⟩
          by_cases h5 : (jsSplitOn ':' s).getD 5 "" = ""
          · have he : ((jsSplitOn ':' s).getD 5 "" == "") = true := beq_iff_eq.mpr h5
            conv_lhs => rw [if_neg hlen, if_neg hor, if_pos he]
            rw [if_neg (fun hc => hc.2.2.2 h5)]
          · have he : ¬(((jsSplitOn ':' s).getD 5 "" == "") = true) :=
              fun hc => h5 (beq_iff_eq.mp hc)
            conv_lhs => rw [if_neg hlen, if_neg hor, if_neg he]
            rw [if_pos ⟨by omega, h2, h4, h5⟩]
        · have hor : (((jsSplitOn ':' s).getD 2 "" != "telegram"
              || (jsSplitOn ':' s).getD 4 "" != "direct") = true) := by
            simp only [Bool.or_eq_true, bne_iff_ne]
            exact Or.inr h4
          conv_lhs => rw [if_neg hlen, if_pos hor]
          rw [if_neg (fun hc => h4 hc.2.2.1)]
      · have hor : (((jsSplitOn ':' s).getD 2 "" != "telegram"
            || (jsSplitOn ':' s).getD 4 "" != "direct") = true) := by
          simp only [Bool.or_eq_true, bne_iff_ne]
          exact Or.inl h2
        conv_lhs => rw [if_neg hlen, if_pos hor]
        rw [if_neg (fun hc => h2 hc.2.1)]

end McpBridge

namespace McpBridge

/-- Claim C1 counterexample: a completed exchange with HTTP 200 and body
`null` parses successfully to JSON `null`, and the following top-level
`error` property access throws a `TypeError` that escapes `execute` —
so invocation failures are not universally recovered into normal
returns. -/
theorem execute_null_body_throws :
    (executeTool fixtureEnv fixtureServer fixtureTool none none "call-1"
        (.obj []) ⟨true, 200, "null"⟩).result
      = .error "TypeError: Cannot read properties of null (reading error)" := by
  rfl

/-- Claim C1 (amended): for a completed `tools/call` exchange (token
resolution not refusing), each of the three listed failure shapes is
recovered into a normal return: a non-success status yields a content
block with `error: true`, the numeric status and at most 1000 characters
of the body; a body whose decoded text fails to parse yields an error
block describing the parse failure; a parsed body with a truthy
top-level `error` field yields an error block carrying that error's
message. (The blanket no-throw guarantee fails when a success body
parses to JSON `null`, per the counterexample.) -/
theorem execute_error_recovery (env : Env) (server : ServerConfig)
    (mcpTool : McpToolDefinition) (sessionId : Option String)
    (tokenOpts : Option TokenResolutionOptions) (toolCallId : String)
    (params : Json) (resp : FetchResponse)
    (hna : jsStrTruthy (executeTokenPair server tokenOpts).2 = false) :
    (resp.ok = false →
      (executeTool env server mcpTool sessionId tokenOpts toolCallId params resp).result
        = .ok ⟨[⟨"text", jsonStringify (.obj [("error", .bool true),
            ("status", .num resp.status),
            ("message", .str (jsTake resp.body 1000))])⟩], none⟩) ∧
    (∀ e : String, resp.ok = true →
      env.jsonParse (parseSseResponse resp.body) = .error e →
      (executeTool env server mcpTool sessionId tokenOpts toolCallId params resp).result
        = .ok ⟨[⟨"text", jsonStringify (.obj [("error", .bool true),
            ("message", .str ("Failed to parse MCP response: " ++ e))])⟩], none⟩) ∧
    (∀ (j errVal : Json), resp.ok = true →
      env.jsonParse (parseSseResponse resp.body) = .ok j →
      jsAccess j "error" = .ok (some errVal) → jsTruthy errVal = true →
      (executeTool env server mcpTool sessionId tokenOpts toolCallId params resp).result
        = .ok ⟨[⟨"text", jsonStringify (.obj [("error", .bool true),
            ("message",
              if nullish (jsObjGet errVal "message") then
                Json.str (jsonStringify errVal)
              else (jsObjGet errVal "message").getD .null)])⟩], none⟩) := by
  refine ⟨?_, ?_, ?_⟩
  · intro hok
    simp [executeTool, hna, hok]
  · intro e hok hparse
    simp [executeTool, hna, hok, hparse]
  · intro j errVal hok hparse hacc htruthy
    simp [executeTool, hna, hok, hparse, hacc, jsTruthyOpt, htruthy]

end McpBridge

namespace McpBridge

/-- Claim C1 witness: concrete recovered outcomes for an HTTP 500, an
unparseable 200 body, and a 200 body carrying a top-level error field. -/
theorem execute_error_recovery_witness :
    (executeTool fixtureEnv fixtureServer fixtureTool none none "call-1"
        (.obj []) ⟨false, 500, "Internal Server Error"⟩).result
      = .ok ⟨[⟨"text",
          "\x7b\"error\":true,\"status\":500,\"message\":\"Internal Server Error\"\x7d"⟩],
          none⟩ ∧
    (executeTool fixtureEnv fixtureServer fixtureTool none none "call-1"
        (.obj []) ⟨true, 200, "not json"⟩).result
      = .ok ⟨[⟨"text",
          "\x7b\"error\":true,\"message\":\"Failed to parse MCP response: SyntaxError: Unexpected token\"\x7d"⟩],
          none⟩ ∧
    (executeTool fixtureEnv fixtureServer fixtureTool none none "call-1"
        (.obj []) ⟨true, 200, fixtureErrBody⟩).result
      = .ok ⟨[⟨"text", "\x7b\"error\":true,\"message\":\"boom\"\x7d"⟩], none⟩ := by
  refine ⟨?_, ?_, ?_⟩
  · exact ((execute_error_recovery fixtureEnv fixtureServer fixtureTool none none
      "call-1" (.obj []) ⟨false, 500, "Internal Server Error"⟩ rfl).1 rfl).trans (by rfl)
  · exact ((execute_error_recovery fixtureEnv fixtureServer fixtureTool none none
      "call-1" (.obj []) ⟨true, 200, "not json"⟩ rfl).2.1
      "SyntaxError: Unexpected token" rfl (by rfl)).trans (by rfl)
  · exact ((execute_error_recovery fixtureEnv fixtureServer fixtureTool none none
      "call-1" (.obj []) ⟨true, 200, fixtureErrBody⟩ rfl).2.2
      fixtureErrJson (.obj [("message", .str "boom")]) rfl (by rfl) (by rfl)
      (by rfl)).trans (by rfl)

end McpBridge

namespace McpBridge

/-- When token resolution does not refuse, `execute` always sends exactly
the request built from its bindings: endpoint from the server config,
bearer header from the resolved token, session header from the captured
session id, and the `tools/call` body. -/
theorem executeTool_sent (env : Env) (server : ServerConfig)
    (mcpTool : McpToolDefinition) (sessionId : Option String)
    (tokenOpts : Option TokenResolutionOptions) (toolCallId : String)
    (params : Json) (resp : FetchResponse)
    (hna : jsStrTruthy (executeTokenPair server tokenOpts).2 = false) :
    (executeTool env server mcpTool sessionId tokenOpts toolCallId params resp).sent
      = some ⟨server.url ++ (server.path.getD DEFAULT_MCP_PATH),
          "application/json", "application/json, text/event-stream",
          if jsStrTruthy (executeTokenPair server tokenOpts).1 then
            some ("Bearer " ++ (executeTokenPair server tokenOpts).1.getD "")
          else none,
          if jsStrTruthy sessionId then sessionId else none,
          toolCallBody mcpTool.name params toolCallId⟩ := by
  unfold executeTool
  rw [if_neg (by simp [hna])]
  dsimp only
  repeat first
    | rfl
    | split

/-- Claim C5: against a server returning a cursor on page 1 and none on
page 2, discovery returns page-1 tools followed by page-2 tools; the two
`tools/list` requests carry ids 1 and 2, the cursor parameter appears
only on the second, and the loop stops after the cursorless page. -/
theorem discovery_pagination (env : Env) (server : ServerConfig)
    (r0 rN r1 r2 : CurlResp) (ts1 ts2 : List Json) (c : String)
    (hp1 : env.jsonParse (parseSseResponse r1.body)
      = .ok (.obj [("result", .obj [("tools", .arr ts1), ("nextCursor", .str c)])]))
    (hc : c ≠ "")
    (hp2 : env.jsonParse (parseSseResponse r2.body)
      = .ok (.obj [("result", .obj [("tools", .arr ts2)])]))
    (h0 : extractSessionId r0.headers = none)
    (h1 : extractSessionId r1.headers = none)
    (h2 : extractSessionId r2.headers = none) :
    (discoverToolsSync env server [.ok r0, .ok rN, .ok r1, .ok r2]).2
      = .ok ⟨ts1 ++ ts2, none⟩ ∧
    (discoverToolsSync env server [.ok r0, .ok rN, .ok r1, .ok r2]).1.map
        (fun r => r.body)
      = [initBody, initializedBody,
         .obj [("jsonrpc", .str "2.0"), ("method", .str "tools/list"),
           ("params", .obj []), ("id", .num 1)],
         .obj [("jsonrpc", .str "2.0"), ("method", .str "tools/list"),
           ("params", .obj [("cursor", .str c)]), ("id", .num 2)]] := by
  have hcb : (c != "") = true := bne_iff_ne.mpr hc
  constructor
  · simp [discoverToolsSync, listLoop, hp1, hp2, h0, h1, h2, hcb,
      jsAccess, jsObjGet, optChain, jsTruthyOpt, jsTruthy, jsStrTruthy,
      List.lookup, nullish]
  · simp [discoverToolsSync, listLoop, hp1, hp2, h0, h1, h2, hcb,
      jsAccess, jsObjGet, optChain, jsTruthyOpt, jsTruthy, jsStrTruthy,
      List.lookup, nullish]

/-- Claim C5 witness: a concrete two-page discovery run. -/
theorem discovery_pagination_witness :
    (discoverToolsSync fixtureEnv fixtureServer
        [.ok ⟨"", "\x7b\x7d"⟩, .ok ⟨"", ""⟩, .ok ⟨"", fixtureBody1⟩,
         .ok ⟨"", fixtureBody2⟩]).2
      = .ok ⟨[.obj [("name", .str "t1")], .obj [("name", .str "t2")]], none⟩ ∧
    (discoverToolsSync fixtureEnv fixtureServer
        [.ok ⟨"", "\x7b\x7d"⟩, .ok ⟨"", ""⟩, .ok ⟨"", fixtureBody1⟩,
         .ok ⟨"", fixtureBody2⟩]).1.map (fun r => r.body)
      = [initBody, initializedBody,
         .obj [("jsonrpc", .str "2.0"), ("method", .str "tools/list"),
           ("params", .obj []), ("id", .num 1)],
         .obj [("jsonrpc", .str "2.0"), ("method", .str "tools/list"),
           ("params", .obj [("cursor", .str "abc")]), ("id", .num 2)]] := by
  have h := discovery_pagination fixtureEnv fixtureServer
    ⟨"", "\x7b\x7d"⟩ ⟨"", ""⟩ ⟨"", fixtureBody1⟩ ⟨"", fixtureBody2⟩
    [.obj [("name", .str "t1")]] [.obj [("name", .str "t2")]] "abc"
    (by rfl) (by decide) (by rfl) rfl rfl rfl
  exact ⟨h.1.trans (by rfl), h.2⟩

end McpBridge

namespace McpBridge

/-- Claim C6: a session id captured from response headers is echoed on
every subsequent request — the initialized notification, both
`tools/list` pages, and any `tools/call` of a bridged tool built with
the discovery's final session id — and a session id on a `tools/list`
response overwrites the held one. -/
theorem discovery_session_id_threading (env : Env) (server : ServerConfig)
    (mcpTool : McpToolDefinition) (r0 rN r1 r2 : CurlResp)
    (ts1 ts2 : List Json) (c sid1 sid2 : String)
    (h0 : extractSessionId r0.headers = some sid1) (hs1 : sid1 ≠ "")
    (h1 : extractSessionId r1.headers = some sid2) (hs2 : sid2 ≠ "")
    (h2 : extractSessionId r2.headers = none)
    (hp1 : env.jsonParse (parseSseResponse r1.body)
      = .ok (.obj [("result", .obj [("tools", .arr ts1), ("nextCursor", .str c)])]))
    (hc : c ≠ "")
    (hp2 : env.jsonParse (parseSseResponse r2.body)
      = .ok (.obj [("result", .obj [("tools", .arr ts2)])])) :
    (discoverToolsSync env server [.ok r0, .ok rN, .ok r1, .ok r2]).1.map
        (fun r => r.sessionHeader)
      = [none, some sid1, some sid1, some sid2] ∧
    (discoverToolsSync env server [.ok r0, .ok rN, .ok r1, .ok r2]).2
      = .ok ⟨ts1 ++ ts2, some sid2⟩ ∧
    (∀ (toolCallId : String) (params : Json) (resp : FetchResponse),
      ((createBridgedTool server mcpTool (some sid2) none).execute env
            toolCallId params resp).sent.map (fun r => r.mcpSessionId)
        = some (some sid2)) := by
  have hcb : (c != "") = true := bne_iff_ne.mpr hc
  have hs1b : (sid1 != "") = true := bne_iff_ne.mpr hs1
  have hs2b : (sid2 != "") = true := bne_iff_ne.mpr hs2
  refine ⟨?_, ?_, ?_⟩
  · simp [discoverToolsSync, listLoop, hp1, hp2, h0, h1, h2, hcb, hs1b, hs2b,
      jsAccess, jsObjGet, optChain, jsTruthyOpt, jsTruthy, jsStrTruthy,
      List.lookup, nullish]
  · simp [discoverToolsSync, listLoop, hp1, hp2, h0, h1, h2, hcb, hs1b, hs2b,
      jsAccess, jsObjGet, optChain, jsTruthyOpt, jsTruthy, jsStrTruthy,
      List.lookup, nullish]
  · intro toolCallId params resp
    have hsent := executeTool_sent env server mcpTool (some sid2) none
      toolCallId params resp rfl
    simp only [createBridgedTool] at hsent ⊢
    rw [hsent]
    simp [jsStrTruthy, hs2b]

end McpBridge

namespace McpBridge

/-- Claim C6 witness: a concrete run where the initialize response sets
`sess-1`, the first `tools/list` response overwrites it with `sess-2`,
and a bridged tool built from the result sends `sess-2`. -/
theorem discovery_session_id_threading_witness :
    (discoverToolsSync fixtureEnv fixtureServer
        [.ok ⟨"HTTP/1.1 200 OK\r\nMcp-Session-Id: sess-1", "\x7b\x7d"⟩,
         .ok ⟨"", ""⟩,
         .ok ⟨"HTTP/1.1 200 OK\r\nMcp-Session-Id: sess-2", fixtureBody1⟩,
         .ok ⟨"HTTP/1.1 200 OK", fixtureBody2⟩]).1.map (fun r => r.sessionHeader)
      = [none, some "sess-1", some "sess-1", some "sess-2"] ∧
    ((createBridgedTool fixtureServer fixtureTool (some "sess-2") none).execute
          fixtureEnv "call-1" (.obj []) ⟨true, 200, "\x7b\x7d"⟩).sent.map
        (fun r => r.mcpSessionId)
      = some (some "sess-2") := by
  have h := discovery_session_id_threading fixtureEnv fixtureServer fixtureTool
    ⟨"HTTP/1.1 200 OK\r\nMcp-Session-Id: sess-1", "\x7b\x7d"⟩ ⟨"", ""⟩
    ⟨"HTTP/1.1 200 OK\r\nMcp-Session-Id: sess-2", fixtureBody1⟩
    ⟨"HTTP/1.1 200 OK", fixtureBody2⟩
    [.obj [("name", .str "t1")]] [.obj [("name", .str "t2")]]
    "abc" "sess-1" "sess-2"
    (by rfl) (by decide) (by rfl) (by decide) (by rfl) (by rfl) (by decide)
    (by rfl)
  exact ⟨h.1, h.2.2 "call-1" (.obj []) ⟨true, 200, "\x7b\x7d"⟩⟩

/-- Claim C7: a `tools/list` response with a top-level error field fails
discovery with a single wrapped message naming the server and its
query-stripped URL and containing `MCP error`; a non-array
`result.tools` likewise with `Unexpected tools/list response`; and a
transport-level exception is re-raised exactly once with the same
wrapping. -/
theorem discovery_failure_wrapping (env : Env) (server : ServerConfig)
    (r0 rN r1 r1b : CurlResp) (m : String) (bad : Json) (e : String)
    (h0 : extractSessionId r0.headers = none)
    (hp1 : env.jsonParse (parseSseResponse r1.body)
      = .ok (.obj [("error", .obj [("message", .str m)])]))
    (hpb : env.jsonParse (parseSseResponse r1b.body)
      = .ok (.obj [("result", .obj [("tools", bad)])]))
    (hbad : isArr bad = false) :
    (discoverToolsSync env server [.ok r0, .ok rN, .ok r1]).2
      = .error ("Failed to discover tools from " ++ server.name ++ " ("
          ++ sanitizeUrlForLog (server.url ++ (server.path.getD DEFAULT_MCP_PATH))
          ++ "): " ++ ("MCP error: " ++ m)) ∧
    (discoverToolsSync env server [.ok r0, .ok rN, .ok r1b]).2
      = .error ("Failed to discover tools from " ++ server.name ++ " ("
          ++ sanitizeUrlForLog (server.url ++ (server.path.getD DEFAULT_MCP_PATH))
          ++ "): "
          ++ ("Unexpected tools/list response: "
            ++ jsTake (parseSseResponse r1b.body) 200)) ∧
    (discoverToolsSync env server [.error e]).2
      = .error ("Failed to discover tools from " ++ server.name ++ " ("
          ++ sanitizeUrlForLog (server.url ++ (server.path.getD DEFAULT_MCP_PATH))
          ++ "): " ++ e) := by
  refine ⟨?_, ?_, ?_⟩
  · simp [discoverToolsSync, listLoop, h0, hp1,
      jsAccess, jsObjGet, optChain, jsTruthyOpt, jsTruthy, jsStrTruthy,
      List.lookup, nullish, jsToString]
  · cases bad <;>
      simp_all [isArr, discoverToolsSync, listLoop,
        jsAccess, jsObjGet, optChain, jsTruthyOpt, jsTruthy, jsStrTruthy,
        List.lookup, nullish]
  · simp [discoverToolsSync, listLoop]

end McpBridge

namespace McpBridge

/-- Claim C7 witness: concrete wrapped failure messages for an error
field, a non-array tools value, and a transport throw. -/
theorem discovery_failure_wrapping_witness :
    (discoverToolsSync fixtureEnv fixtureServer
        [.ok ⟨"", "\x7b\x7d"⟩, .ok ⟨"", ""⟩, .ok ⟨"", fixtureErrBody⟩]).2
      = .error
          "Failed to discover tools from notion (http://localhost:3000/mcp): MCP error: boom" ∧
    (discoverToolsSync fixtureEnv fixtureServer
        [.ok ⟨"", "\x7b\x7d"⟩, .ok ⟨"", ""⟩, .ok ⟨"", fixtureBadBody⟩]).2
      = .error
          "Failed to discover tools from notion (http://localhost:3000/mcp): Unexpected tools/list response: \x7b\"result\":\x7b\"tools\":\"nope\"\x7d\x7d" ∧
    (discoverToolsSync fixtureEnv fixtureServer [.error "curl: timed out"]).2
      = .error
          "Failed to discover tools from notion (http://localhost:3000/mcp): curl: timed out" := by
  have h := discovery_failure_wrapping fixtureEnv fixtureServer
    ⟨"", "\x7b\x7d"⟩ ⟨"", ""⟩ ⟨"", fixtureErrBody⟩ ⟨"", fixtureBadBody⟩
    "boom" (.str "nope") "curl: timed out" rfl (by rfl) (by rfl) rfl
  exact ⟨h.1.trans (by rfl), h.2.1.trans (by rfl), h.2.2.trans (by rfl)⟩

end McpBridge
